import Mathlib

/-
Verification of the bootstrap and provisioning orchestrator of the
embedded-openfga repository.

The development is a shallow embedding of the Go code in cmd/openfga.go
(the sqlite bootstrap: NewOpenFGA, Check, Write, Close) and of the
fgaclient connection (NewEmbeddedSqlite, AddTuples).  External
collaborators (the OpenFGA engine, its datastore, the DSL parser, the
go-playground validator, the filesystem) are modelled at their interface
boundary: probe outcomes, parse outcomes and engine write outcomes are
oracle parameters, and the engine storage of stores and authorization
models is an explicit state threaded through the provisioning code.
Every external call the orchestrator makes is recorded in an event
trace, so claims about which calls happen (and in which situations no
call happens) are statements about the trace.
-/

set_option maxHeartbeats 1000000

/-- Character list version of substring search, used to embed Go
strings.Contains.  startsWithChars pat l is true when l begins with pat. -/
def startsWithChars : List Char → List Char → Bool
  | [], _ => true
  | _ :: _, [] => false
  | p :: ps, c :: cs => p == c && startsWithChars ps cs

/-- containsChars pat l is true when pat occurs as a contiguous run inside l. -/
def containsChars (pat : List Char) : List Char → Bool
  | [] => startsWithChars pat []
  | c :: cs => startsWithChars pat (c :: cs) || containsChars pat cs

/-- Embedding of Go strings.Contains(s, sub): true when sub occurs in s
(an empty sub is contained in every string). -/
def goContains (s sub : String) : Bool :=
  containsChars sub.data s.data

/-- A relationship tuple as in cmd/openfga.go (struct Tuple): object,
relation and user strings. -/
structure Tuple where
  object : String
  relation : String
  user : String
deriving Repr, DecidableEq

/-- The readiness report returned by the datastore IsReady probe
(storage.ReadinessStatus): a ready flag and a diagnostic message. -/
structure ReadinessReport where
  isReady : Bool
  message : String
deriving Repr, DecidableEq

/-- Outcome of one datastore IsReady call: either a hard error (the Go
call returned err != nil) or a report. -/
inductive ProbeResult where
  | hardError (msg : String)
  | report (r : ReadinessReport)
deriving Repr, DecidableEq

/-- Outcome of one engine IsReady call: either a hard error or a boolean
readiness flag. -/
inductive EngineProbe where
  | hardError (msg : String)
  | ready (b : Bool)
deriving Repr, DecidableEq

/-- Errors a readiness wait loop can end with. -/
inductive WaitErr where
  | connectionError (msg : String)
  | migrationFailed (msg : String)
  | readinessTimeout
deriving Repr, DecidableEq

/-- External calls made by the orchestrator, recorded as a trace. -/
inductive Event where
  | datastoreConnect
  | probeDatastore
  | runMigration
  | probeEngine
  | sleep
  | listStores (name : String)
  | createStore (name : String)
  | readModels (storeId : String)
  | writeModel (storeId : String)
  | engineWrite (numKeys : Nat)
  | engineClose
deriving Repr, DecidableEq

/-- The sentinel text cmd/openfga.go line 170 looks for in the not-ready
message before running migrations. -/
def migrationSentinel : String := "datastore requires migrations"

/-- One iteration of the datastore readiness loop of NewOpenFGA
(cmd/openfga.go lines 161-185): probe IsReady; a hard error returns
immediately wrapped as a connection error; a ready report ends the loop
with success; a not-ready report whose message contains the migration
sentinel runs the migration, and a migration failure is returned
immediately; finally the select either sleeps and retries or times out,
which the onWait continuation provides (it receives the migration run
count to use from here on). -/
def waitBody (probe : Nat → ProbeResult) (mig : Nat → Option String) (i m : Nat)
    (onWait : Nat → Except WaitErr Unit × List Event) :
    Except WaitErr Unit × List Event :=
  match probe i with
  | ProbeResult.hardError e => (Except.error (WaitErr.connectionError e), [Event.probeDatastore])
  | ProbeResult.report r =>
    if r.isReady then (Except.ok (), [Event.probeDatastore])
    else if goContains r.message migrationSentinel then
      match mig m with
      | some e => (Except.error (WaitErr.migrationFailed e), [Event.probeDatastore, Event.runMigration])
      | none =>
        let rest := onWait (m + 1)
        (rest.1, Event.probeDatastore :: Event.runMigration :: rest.2)
    else
      let rest := onWait m
      (rest.1, Event.probeDatastore :: rest.2)

/-- The datastore readiness loop: the timeout select is abstracted as a
fuel count of remaining sleeps (zero fuel means the timeout channel
fires at the select); probe and migration outcomes are oracle sequences
indexed by how many probes and migrations have run so far. -/
def waitDatastore (probe : Nat → ProbeResult) (mig : Nat → Option String) :
    Nat → Nat → Nat → Except WaitErr Unit × List Event
  | i, m, 0 =>
    waitBody probe mig i m (fun _ => (Except.error WaitErr.readinessTimeout, []))
  | i, m, fuel + 1 =>
    waitBody probe mig i m (fun m2 =>
      let rest := waitDatastore probe mig (i + 1) m2 fuel
      (rest.1, Event.sleep :: rest.2))

/-- One iteration of the engine readiness loop of NewOpenFGA
(cmd/openfga.go lines 209-225): same structure as the datastore
iteration but with a boolean probe and no migration branch. -/
def engineBody (probe : Nat → EngineProbe) (i : Nat)
    (onWait : Except WaitErr Unit × List Event) :
    Except WaitErr Unit × List Event :=
  match probe i with
  | EngineProbe.hardError e => (Except.error (WaitErr.connectionError e), [Event.probeEngine])
  | EngineProbe.ready true => (Except.ok (), [Event.probeEngine])
  | EngineProbe.ready false => (onWait.1, Event.probeEngine :: onWait.2)

/-- The engine readiness loop, with the same fuel abstraction of the
timeout select as the datastore loop. -/
def waitEngine (probe : Nat → EngineProbe) :
    Nat → Nat → Except WaitErr Unit × List Event
  | i, 0 => engineBody probe i (Except.error WaitErr.readinessTimeout, [])
  | i, fuel + 1 =>
    engineBody probe i
      (let rest := waitEngine probe (i + 1) fuel
       (rest.1, Event.sleep :: rest.2))

example : goContains "sqlite datastore requires migrations before use" migrationSentinel = true := by decide
example : goContains "connection refused" migrationSentinel = false := by decide

/-- A store descriptor: engine-assigned id and human-chosen name. -/
structure Store where
  id : String
  name : String
deriving Repr, DecidableEq

/-- The structured schema produced by the DSL parser
(parser.TransformDSLToProto), kept opaque: only its presence matters to
the orchestrator, which never inspects or compares it. -/
structure Schema where
  typeDefinitions : String
deriving Repr, DecidableEq

/-- An authorization model stored by the engine: engine-assigned id and
the schema that was written. -/
structure AuthModel where
  id : String
  schema : Schema
deriving Repr, DecidableEq

/-- The engine storage visible to provisioning, modelled at the
interface boundary of the OpenFGA server: stores and, per store id, the
authorization models, both kept in creation order (the order ListStores
and ReadAuthorizationModels enumerate).  nextId supplies fresh
engine-assigned ids. -/
structure EngineState where
  stores : List Store
  models : List (String × AuthModel)
  nextId : Nat
deriving Repr, DecidableEq

/-- A fresh engine-assigned identifier. -/
def freshId (n : Nat) : String := "id-" ++ toString n

/-- Engine ListStores with a name filter: the stores whose name equals
the filter exactly, in engine list order. -/
def listStores (st : EngineState) (name : String) : List Store :=
  st.stores.filter (fun s => s.name == name)

/-- Engine CreateStore: appends a store with a fresh id. -/
def createStore (st : EngineState) (name : String) : Store × EngineState :=
  let s : Store := { id := freshId st.nextId, name := name }
  (s, { st with stores := st.stores ++ [s], nextId := st.nextId + 1 })

/-- Engine ReadAuthorizationModels for one store id, in engine list
order. -/
def listModels (st : EngineState) (storeId : String) : List AuthModel :=
  (st.models.filter (fun p => p.1 == storeId)).map (fun p => p.2)

/-- Engine WriteAuthorizationModel: appends a model with a fresh id. -/
def writeModel (st : EngineState) (storeId : String) (sch : Schema) :
    AuthModel × EngineState :=
  let am : AuthModel := { id := freshId st.nextId, schema := sch }
  (am, { st with models := st.models ++ [(storeId, am)], nextId := st.nextId + 1 })

/-- Store provisioning step of NewOpenFGA (cmd/openfga.go lines
229-248): list stores filtered by the configured name; zero matches
create a store and record its id; otherwise the first listed store id is
recorded and nothing is created. -/
def ensureStore (st : EngineState) (name : String) :
    String × EngineState × List Event :=
  match listStores st name with
  | [] =>
    let c := createStore st name
    (c.1.id, c.2, [Event.listStores name, Event.createStore name])
  | s :: _ => (s.id, st, [Event.listStores name])

/-- Model provisioning step of NewOpenFGA (cmd/openfga.go lines
256-284): parse the DSL first (a parse failure is returned before any
model listing), then list the store models; zero models write the
parsed schema and record the new id; otherwise the first listed model id
is recorded, with no write and no comparison against the parsed DSL. -/
def ensureModel (parse : String → Except String Schema) (st : EngineState)
    (storeId dsl : String) :
    Except String (String × EngineState) × List Event :=
  match parse dsl with
  | Except.error e => (Except.error e, [])
  | Except.ok sch =>
    match listModels st storeId with
    | [] =>
      let wres := writeModel st storeId sch
      (Except.ok (wres.1.id, wres.2), [Event.readModels storeId, Event.writeModel storeId])
    | m :: _ => (Except.ok (m.id, st), [Event.readModels storeId])

/-- The OpenFGAServer handle fields relevant to lifecycle claims: the
Server pointer (none embeds a nil pointer) and the provisioned ids. -/
structure Handle where
  server : Option Unit
  storeID : String
  authorizationModelID : String
deriving Repr, DecidableEq

/-- Outcome of a Go call at the embedding boundary: a normal value, an
error return, or a run-time nil pointer dereference panic. -/
inductive GoOutcome (A : Type) where
  | ok (a : A)
  | err (msg : String)
  | nilPanic
deriving Repr, DecidableEq

/-- OpenFGAServer.Write (cmd/openfga.go lines 308-331).  An empty tuple
list is rejected before anything else happens.  Otherwise the tuples are
converted to keys and submitted as one engine batch write (through the
nil Server pointer this dereference panics); an engine error whose text
contains the recognized already-exists phrase is swallowed as success
when ignoreExisting is set, every other error is wrapped and returned.
The engine outcome is an oracle from the submitted batch to an optional
error message. -/
def fgaWrite (engineWrite : List Tuple → Option String) (h : Handle)
    (t : List Tuple) (ignoreExisting : Bool) :
    GoOutcome Unit × List Event :=
  if t.length = 0 then (GoOutcome.err "no tuples provided to write", [])
  else
    match h.server with
    | none => (GoOutcome.nilPanic, [])
    | some _ =>
      match engineWrite t with
      | none => (GoOutcome.ok (), [Event.engineWrite t.length])
      | some e =>
        if goContains e "already exists" && ignoreExisting then
          (GoOutcome.ok (), [Event.engineWrite t.length])
        else
          (GoOutcome.err ("failed to write tuple to OpenFGA: " ++ e), [Event.engineWrite t.length])

/-- OpenFGAServer.Check (cmd/openfga.go lines 296-306): a pass-through
to the engine Check call, wrapping engine errors.  Through a nil Server
pointer the call dereferences nil and panics. -/
def handleCheck (engineCheck : Tuple → Except String Bool) (h : Handle)
    (t : Tuple) : GoOutcome Bool :=
  match h.server with
  | none => GoOutcome.nilPanic
  | some _ =>
    match engineCheck t with
    | Except.error e => GoOutcome.err ("failed to check tuple in OpenFGA: " ++ e)
    | Except.ok b => GoOutcome.ok b

/-- OpenFGAServer.Close (cmd/openfga.go lines 333-338): calls the engine
Close when the Server pointer is non-nil, always returns nil, and never
clears the Server field. -/
def handleClose (h : Handle) : Except String Unit × Handle × List Event :=
  match h.server with
  | none => (Except.ok (), h, [])
  | some _ => (Except.ok (), h, [Event.engineClose])

/-- Conn.AddTuples of the fgaclient package (fgaclient source lines
103-119): converts the tuples to keys with no empty-input check, always
issues the engine batch write, and returns the engine outcome verbatim
apart from error wrapping. -/
def addTuples (engineWrite : List Tuple → Option String) (t : List Tuple) :
    Except String Unit × List Event :=
  match engineWrite t with
  | none => (Except.ok (), [Event.engineWrite t.length])
  | some e => (Except.error ("failed to write tuple to OpenFGA: " ++ e), [Event.engineWrite t.length])

/-- The fully applied OpenFGAServer configuration as it stands when
validator.Struct runs in NewOpenFGA (cmd/openfga.go lines 41-52 and
133-149).  CacheTTL and MaxEvaluationCost carry their defaults unless
options changed them. -/
structure Config where
  storeName : String
  authorizationModelName : String
  initialTuples : List Tuple
  modelFile : String
  dataStoreURI : String
  maxEvaluationCost : Int
  cacheTTL : Int
deriving Repr, DecidableEq

/-- The validator tag required on a struct element (dive,required on
InitialTuples): the element must not be the zero value. -/
def tupleRequired (t : Tuple) : Bool :=
  !(t.object == "" && t.relation == "" && t.user == "")

/-- validator.Struct applied to OpenFGAServer.  The go-playground
validator only walks exported fields (its struct cache skips every
non-anonymous field with a non-empty PkgPath), so the tags on the
exported fields run: StoreName required, AuthorizationModelName
required, InitialTuples min=1 and dive required, ModelFile required and
file (a filesystem existence probe, the oracle argument), CacheTTL
required, MaxEvaluationCost gte=0.  The tag on the unexported
dataStoreURI field is never evaluated. -/
def validateConfig (fileExists : String → Bool) (c : Config) : Bool :=
  c.storeName != "" &&
  c.authorizationModelName != "" &&
  decide (1 ≤ c.initialTuples.length) &&
  c.initialTuples.all tupleRequired &&
  c.modelFile != "" &&
  fileExists c.modelFile &&
  decide (0 ≤ c.maxEvaluationCost) &&
  c.cacheTTL != 0

/-- The external world NewOpenFGA interacts with: filesystem existence
for the validator file tag, the sqlite datastore constructor outcome,
the two probe sequences, the migration runner outcomes, model file
contents, the DSL parser, and the engine batch write used to seed the
initial tuples. -/
structure World where
  fileExists : String → Bool
  connect : String → Option String
  dsProbe : Nat → ProbeResult
  migRun : Nat → Option String
  engProbe : Nat → EngineProbe
  readFile : String → Except String String
  parse : String → Except String Schema
  seedWrite : List Tuple → Option String

/-- Classified bootstrap failures of NewOpenFGA. -/
inductive BootErr where
  | configInvalid
  | datastoreUnreachable (msg : String)
  | connectionError (msg : String)
  | migrationFailed (msg : String)
  | readinessTimeout
  | modelReadError (msg : String)
  | modelParseError (msg : String)
  | seedWriteFailed (msg : String)
  | enginePanic
deriving Repr, DecidableEq

/-- Wait loop errors lifted into bootstrap errors. -/
def liftWait : WaitErr → BootErr
  | WaitErr.connectionError e => BootErr.connectionError e
  | WaitErr.migrationFailed e => BootErr.migrationFailed e
  | WaitErr.readinessTimeout => BootErr.readinessTimeout

/-- The state-independent front of NewOpenFGA (cmd/openfga.go lines
133-227): option validation, datastore construction, the datastore
readiness loop with its migration branch, and the engine readiness
loop.  None of it touches the provisioning state. -/
def bootGate (w : World) (c : Config) (fuel : Nat) :
    Except BootErr Unit × List Event :=
  if validateConfig w.fileExists c then
    match w.connect c.dataStoreURI with
    | some e => (Except.error (BootErr.datastoreUnreachable e), [Event.datastoreConnect])
    | none =>
      match waitDatastore w.dsProbe w.migRun 0 0 fuel with
      | (Except.error e, tr1) => (Except.error (liftWait e), Event.datastoreConnect :: tr1)
      | (Except.ok _, tr1) =>
        match waitEngine w.engProbe 0 fuel with
        | (Except.error e, tr2) => (Except.error (liftWait e), Event.datastoreConnect :: (tr1 ++ tr2))
        | (Except.ok _, tr2) => (Except.ok (), Event.datastoreConnect :: (tr1 ++ tr2))
  else (Except.error BootErr.configInvalid, [])

/-- NewOpenFGA (cmd/openfga.go lines 133-294): the gate above, then
store provisioning, reading and parsing the model file, model
provisioning, and seeding the configured initial tuples through Write
with ignoreExisting set.  Returns the ready handle and the resulting
engine state, together with the trace of external calls. -/
def newOpenFGA (w : World) (c : Config) (st : EngineState) (fuel : Nat) :
    Except BootErr (Handle × EngineState) × List Event :=
  match bootGate w c fuel with
  | (Except.error e, tr) => (Except.error e, tr)
  | (Except.ok _, tr) =>
    let es := ensureStore st c.storeName
    match w.readFile c.modelFile with
    | Except.error e => (Except.error (BootErr.modelReadError e), tr ++ es.2.2)
    | Except.ok text =>
      match ensureModel w.parse es.2.1 es.1 text with
      | (Except.error e, tr4) => (Except.error (BootErr.modelParseError e), tr ++ es.2.2 ++ tr4)
      | (Except.ok (mid, st2), tr4) =>
        match fgaWrite w.seedWrite (Handle.mk (some ()) es.1 mid) c.initialTuples true with
        | (GoOutcome.ok _, tr5) =>
          (Except.ok (Handle.mk (some ()) es.1 mid, st2), tr ++ es.2.2 ++ tr4 ++ tr5)
        | (GoOutcome.err e, tr5) =>
          (Except.error (BootErr.seedWriteFailed e), tr ++ es.2.2 ++ tr4 ++ tr5)
        | (GoOutcome.nilPanic, tr5) =>
          (Except.error BootErr.enginePanic, tr ++ es.2.2 ++ tr4 ++ tr5)

/-- The constructor outcome alone, without the trace. -/
def bootOutcome (w : World) (c : Config) (st : EngineState) (fuel : Nat) :
    Except BootErr (Handle × EngineState) :=
  (newOpenFGA w c st fuel).1

/-- An empty engine storage: a cold backing store. -/
def esEmpty : EngineState := { stores := [], models := [], nextId := 0 }

/-- A concrete parser oracle: rejects the text bad, accepts anything
else as a schema wrapping the text. -/
def parseDemo (s : String) : Except String Schema :=
  if s == "bad" then Except.error "failed to transform DSL to OpenFGA model"
  else Except.ok { typeDefinitions := s }

/-- A concrete world: a model file that exists and parses, a datastore
that connects for every non-empty URI, probes that are ready at once,
and an engine write that succeeds. -/
def wDemo : World where
  fileExists := fun f => f == "model.fga"
  connect := fun uri => if uri == "" then some "failed to create datastore" else none
  dsProbe := fun _ => ProbeResult.report { isReady := true, message := "" }
  migRun := fun _ => none
  engProbe := fun _ => EngineProbe.ready true
  readFile := fun f => if f == "model.fga" then Except.ok "model-dsl-v1" else Except.error "no such file"
  parse := parseDemo
  seedWrite := fun _ => none

/-- A concrete valid configuration. -/
def cDemo : Config where
  storeName := "acme"
  authorizationModelName := "authz"
  initialTuples := [{ object := "document:1", relation := "editor", user := "user:alice" }]
  modelFile := "model.fga"
  dataStoreURI := "file:test.db"
  maxEvaluationCost := 100
  cacheTTL := 600000000000

/-- The engine state after the first boot of wDemo and cDemo on the
empty storage: one store and one model, both freshly created. -/
def esBoot1 : EngineState :=
  { stores := [{ id := "id-0", name := "acme" }]
    models := [("id-0", { id := "id-1", schema := { typeDefinitions := "model-dsl-v1" } })]
    nextId := 2 }

/-- The handle both boots of wDemo and cDemo return. -/
def hdlDemo : Handle :=
  { server := some (), storeID := "id-0", authorizationModelID := "id-1" }

/-- A Handle whose Server pointer is nil: the zero value a caller holds
before bootstrap ever completed. -/
def nilHandle : Handle := { server := none, storeID := "", authorizationModelID := "" }

/-- cDemo with the datastore URI missing. -/
def cNoURI : Config := { cDemo with dataStoreURI := "" }

/-- An engine state holding a pre-existing model for store id-7, used to
show a parse failure is not masked by the reuse path. -/
def esWithModel : EngineState :=
  { stores := [{ id := "id-7", name := "acme" }]
    models := [("id-7", { id := "id-8", schema := { typeDefinitions := "old" } })]
    nextId := 9 }

/-- wDemo with a model file whose text the parser rejects. -/
def wBadModel : World :=
  { wDemo with readFile := fun f => if f == "model.fga" then Except.ok "bad" else Except.error "no such file" }

/-- An engine write oracle that always reports the recognized
already-exists error. -/
def ewExisting : List Tuple → Option String :=
  fun _ => some "cannot write a tuple which already exists"

/-- An engine write oracle that always reports an unrelated error. -/
def ewBroken : List Tuple → Option String :=
  fun _ => some "context deadline exceeded"

/-- A probe sequence that reports the migration sentinel once and then
is ready. -/
def dsProbeMigrate : Nat → ProbeResult
  | 0 => ProbeResult.report { isReady := false, message := "sqlite datastore requires migrations" }
  | _ => ProbeResult.report { isReady := true, message := "" }

/-- A migration runner that fails on its first run. -/
def migFail : Nat → Option String := fun _ => some "goose migration failed"

/-- A run of the migration procedure appears in the datastore wait trace
only when some probe returned a not-ready report whose message contains
the migration sentinel. -/
theorem waitDatastore_migration_source (probe : Nat → ProbeResult)
    (mig : Nat → Option String) :
    ∀ fuel i m, Event.runMigration ∈ (waitDatastore probe mig i m fuel).2 →
      ∃ j r, probe j = ProbeResult.report r ∧ r.isReady = false ∧
        goContains r.message migrationSentinel = true := by
  intro fuel
  induction fuel with
  | zero =>
    intro i m h
    simp only [waitDatastore] at h
    unfold waitBody at h
    cases hp : probe i with
    | hardError e => rw [hp] at h; simp at h
    | report r =>
      rw [hp] at h
      by_cases hr : r.isReady
      · simp [hr] at h
      · by_cases hs : goContains r.message migrationSentinel
        · exact ⟨i, r, hp, Bool.eq_false_iff.mpr hr, hs⟩
        · simp [hr, hs] at h
  | succ f ih =>
    intro i m h
    simp only [waitDatastore] at h
    unfold waitBody at h
    cases hp : probe i with
    | hardError e => rw [hp] at h; simp at h
    | report r =>
      rw [hp] at h
      by_cases hr : r.isReady
      · simp [hr] at h
      · by_cases hs : goContains r.message migrationSentinel
        · exact ⟨i, r, hp, Bool.eq_false_iff.mpr hr, hs⟩
        · simp [hr, hs] at h
          exact ih (i + 1) m h

/-- Store listing only depends on the stores component. -/
theorem listStores_congr (st st2 : EngineState) (name : String)
    (h : st2.stores = st.stores) : listStores st2 name = listStores st name := by
  unfold listStores
  rw [h]

/-- Running ensureStore again on any state whose stores component is the
one ensureStore produced returns the same id, changes nothing and
creates nothing. -/
theorem ensureStore_after (st : EngineState) (name : String) (st2 : EngineState)
    (h : st2.stores = (ensureStore st name).2.1.stores) :
    ensureStore st2 name = ((ensureStore st name).1, st2, [Event.listStores name]) := by
  cases hf : listStores st name with
  | nil =>
    have hs : (ensureStore st name).2.1.stores
        = st.stores ++ [{ id := freshId st.nextId, name := name }] := by
      simp [ensureStore, hf, createStore]
    have h1 : (ensureStore st name).1 = freshId st.nextId := by
      simp [ensureStore, hf, createStore]
    have hfe : List.filter (fun s => s.name == name) st.stores = [] := hf
    have hlist : listStores st2 name = [{ id := freshId st.nextId, name := name }] := by
      unfold listStores
      rw [h, hs, List.filter_append, hfe]
      simp
    rw [h1]
    simp [ensureStore, hlist]
  | cons s rest =>
    have hs : (ensureStore st name).2.1 = st := by simp [ensureStore, hf]
    have h1 : (ensureStore st name).1 = s.id := by simp [ensureStore, hf]
    have h2 : st2.stores = st.stores := by rw [h, hs]
    have hlist : listStores st2 name = s :: rest :=
      (listStores_congr st st2 name h2).trans hf
    rw [h1]
    simp [ensureStore, hlist]

/-- A successful ensureModel leaves the stores component unchanged. -/
theorem ensureModel_ok_stores (p : String → Except String Schema)
    (st : EngineState) (sid dsl : String) (mid : String) (st2 : EngineState)
    (h : (ensureModel p st sid dsl).1 = Except.ok (mid, st2)) :
    st2.stores = st.stores := by
  unfold ensureModel at h
  cases hp : p dsl with
  | error e => rw [hp] at h; simp at h
  | ok sch =>
    rw [hp] at h
    cases hm : listModels st sid with
    | nil =>
      rw [hm] at h
      simp [writeModel] at h
      rw [← h.2]
    | cons m rest =>
      rw [hm] at h
      simp at h
      rw [← h.2]

/-- A successful ensureModel parsed the DSL. -/
theorem ensureModel_ok_parse (p : String → Except String Schema)
    (st : EngineState) (sid dsl : String) (mid : String) (st2 : EngineState)
    (h : (ensureModel p st sid dsl).1 = Except.ok (mid, st2)) :
    ∃ sch, p dsl = Except.ok sch := by
  unfold ensureModel at h
  cases hp : p dsl with
  | error e => rw [hp] at h; simp at h
  | ok sch => exact ⟨sch, rfl⟩

/-- Running ensureModel again on the state a successful ensureModel
produced, with any DSL text that parses, returns the same model id,
changes nothing and writes nothing, only the model listing happens. -/
theorem ensureModel_idem (p : String → Except String Schema)
    (st : EngineState) (sid dsl : String) (mid : String) (st2 : EngineState)
    (h : (ensureModel p st sid dsl).1 = Except.ok (mid, st2))
    (dsl2 : String) (s2 : Schema) (hp2 : p dsl2 = Except.ok s2) :
    ensureModel p st2 sid dsl2 = (Except.ok (mid, st2), [Event.readModels sid]) := by
  unfold ensureModel at h
  cases hp : p dsl with
  | error e => rw [hp] at h; simp at h
  | ok sch =>
    rw [hp] at h
    cases hm : listModels st sid with
    | nil =>
      rw [hm] at h
      simp [writeModel] at h
      obtain ⟨hmid, hst2⟩ := h
      have hfe : List.filter (fun q => q.1 == sid) st.models = [] := by
        cases hq : List.filter (fun q => q.1 == sid) st.models with
        | nil => rfl
        | cons a l =>
          unfold listModels at hm
          rw [hq] at hm
          simp at hm
      have hlist : listModels st2 sid = [{ id := freshId st.nextId, schema := sch }] := by
        unfold listModels
        rw [← hst2]
        rw [List.filter_append, hfe]
        simp
      simp [ensureModel, hp2, hlist, hmid]
    | cons m rest =>
      rw [hm] at h
      simp at h
      obtain ⟨hmid, hst2⟩ := h
      have hlist : listModels st2 sid = m :: rest := by rw [← hst2]; exact hm
      simp [ensureModel, hp2, hlist, hmid, hst2]

/-- Every successful constructor run has this shape: the model file was
read, model provisioning succeeded on the state and id store
provisioning produced, and the returned handle carries the provisioned
ids. -/
theorem newOpenFGA_ok_shape (w : World) (c : Config) (st : EngineState)
    (fuel : Nat) (hdl : Handle) (stOut : EngineState)
    (hb : bootOutcome w c st fuel = Except.ok (hdl, stOut)) :
    ∃ text mid,
      w.readFile c.modelFile = Except.ok text ∧
      (ensureModel w.parse (ensureStore st c.storeName).2.1
          (ensureStore st c.storeName).1 text).1 = Except.ok (mid, stOut) ∧
      hdl = Handle.mk (some ()) (ensureStore st c.storeName).1 mid := by
  unfold bootOutcome newOpenFGA at hb
  cases hg : bootGate w c fuel with
  | mk g tr =>
    rw [hg] at hb
    cases g with
    | error e => simp at hb
    | ok u =>
      simp only [] at hb
      cases hrf : w.readFile c.modelFile with
      | error e => rw [hrf] at hb; simp at hb
      | ok text =>
        rw [hrf] at hb
        dsimp only at hb
        cases hem : ensureModel w.parse (ensureStore st c.storeName).2.1
            (ensureStore st c.storeName).1 text with
        | mk r tr4 =>
          rw [hem] at hb
          cases r with
          | error e => simp at hb
          | ok pr =>
            cases pr with
            | mk mid st2 =>
              dsimp only at hb
              cases hfw : fgaWrite w.seedWrite
                  (Handle.mk (some ()) (ensureStore st c.storeName).1 mid)
                  c.initialTuples true with
              | mk o tr5 =>
                rw [hfw] at hb
                cases o with
                | ok a =>
                  simp at hb
                  refine ⟨text, mid, rfl, ?_, ?_⟩
                  · rw [hem]
                    simp [hb.2]
                  · rw [hb.1]
                | err e => simp at hb
                | nilPanic => simp at hb

/-- C5: during datastore readiness polling the migration procedure runs
only when a not-ready report message contains the recognized migration
sentinel (never on a ready report and never on a non-matching message),
and a migration failure ends the whole wait immediately with a
migration error, with no retry: the loop terminates right after the
single failed migration run. -/
theorem c5_migration_trigger :
    (∀ (probe : Nat → ProbeResult) (mig : Nat → Option String) (fuel i m : Nat),
      Event.runMigration ∈ (waitDatastore probe mig i m fuel).2 →
        ∃ j r, probe j = ProbeResult.report r ∧ r.isReady = false ∧
          goContains r.message migrationSentinel = true) ∧
    (∀ (probe : Nat → ProbeResult) (mig : Nat → Option String) (fuel i m : Nat)
       (r : ReadinessReport) (msg : String),
      probe i = ProbeResult.report r → r.isReady = false →
      goContains r.message migrationSentinel = true → mig m = some msg →
      waitDatastore probe mig i m fuel =
        (Except.error (WaitErr.migrationFailed msg),
         [Event.probeDatastore, Event.runMigration])) := by
  constructor
  · intro probe mig fuel i m h
    exact waitDatastore_migration_source probe mig fuel i m h
  · intro probe mig fuel i m r msg hp hr hs hm
    cases fuel with
    | zero =>
      simp only [waitDatastore]
      unfold waitBody
      rw [hp]
      simp [hr, hs, hm]
    | succ f =>
      simp only [waitDatastore]
      unfold waitBody
      rw [hp]
      simp [hr, hs, hm]

/-- Witness for C5 at concrete inputs: with a probe whose first report
carries the sentinel text and a failing migration runner, a migration
run appears in the trace, its source report matches the sentinel, and
the loop stops immediately with the migration error. -/
theorem c5_witness :
    Event.runMigration ∈ (waitDatastore dsProbeMigrate migFail 0 0 5).2 ∧
    (∃ j r, dsProbeMigrate j = ProbeResult.report r ∧ r.isReady = false ∧
      goContains r.message migrationSentinel = true) ∧
    waitDatastore dsProbeMigrate migFail 0 0 5 =
      (Except.error (WaitErr.migrationFailed "goose migration failed"),
       [Event.probeDatastore, Event.runMigration]) := by
  refine ⟨by decide, ?_, ?_⟩
  · exact c5_migration_trigger.1 dsProbeMigrate migFail 5 0 0 (by decide)
  · exact c5_migration_trigger.2 dsProbeMigrate migFail 5 0 0
      { isReady := false, message := "sqlite datastore requires migrations" }
      "goose migration failed" (by decide) rfl (by decide) rfl

/-- C6: each readiness wait probes immediately: a first probe that
reports ready succeeds with a trace holding the probe alone (in
particular no sleep), and a hard probe error ends the wait immediately
as a connection error with no retry, for the datastore wait and for the
engine wait alike; retrying happens only on soft not-ready reports. -/
theorem c6_readiness_wait :
    (∀ (probe : Nat → ProbeResult) (mig : Nat → Option String) (i m fuel : Nat)
       (r : ReadinessReport), probe i = ProbeResult.report r → r.isReady = true →
      waitDatastore probe mig i m fuel = (Except.ok (), [Event.probeDatastore])) ∧
    (∀ (probe : Nat → ProbeResult) (mig : Nat → Option String) (i m fuel : Nat)
       (e : String), probe i = ProbeResult.hardError e →
      waitDatastore probe mig i m fuel =
        (Except.error (WaitErr.connectionError e), [Event.probeDatastore])) ∧
    (∀ (probe : Nat → EngineProbe) (i fuel : Nat), probe i = EngineProbe.ready true →
      waitEngine probe i fuel = (Except.ok (), [Event.probeEngine])) ∧
    (∀ (probe : Nat → EngineProbe) (i fuel : Nat) (e : String),
      probe i = EngineProbe.hardError e →
      waitEngine probe i fuel =
        (Except.error (WaitErr.connectionError e), [Event.probeEngine])) := by
  refine ⟨?_, ?_, ?_, ?_⟩
  · intro probe mig i m fuel r hp hr
    cases fuel with
    | zero =>
      simp only [waitDatastore]
      unfold waitBody
      rw [hp]
      simp [hr]
    | succ f =>
      simp only [waitDatastore]
      unfold waitBody
      rw [hp]
      simp [hr]
  · intro probe mig i m fuel e hp
    cases fuel with
    | zero =>
      simp only [waitDatastore]
      unfold waitBody
      rw [hp]
    | succ f =>
      simp only [waitDatastore]
      unfold waitBody
      rw [hp]
  · intro probe i fuel hp
    cases fuel with
    | zero =>
      simp only [waitEngine]
      unfold engineBody
      rw [hp]
    | succ f =>
      simp only [waitEngine]
      unfold engineBody
      rw [hp]
  · intro probe i fuel e hp
    cases fuel with
    | zero =>
      simp only [waitEngine]
      unfold engineBody
      rw [hp]
    | succ f =>
      simp only [waitEngine]
      unfold engineBody
      rw [hp]

/-- Witness for C6 at concrete probes: an immediately ready datastore
probe, a hard-failing datastore probe, an immediately ready engine
probe, and a hard-failing engine probe. -/
theorem c6_witness :
    waitDatastore (fun _ => ProbeResult.report { isReady := true, message := "" })
        (fun _ => none) 0 0 3 = (Except.ok (), [Event.probeDatastore]) ∧
    waitDatastore (fun _ => ProbeResult.hardError "connection refused")
        (fun _ => none) 0 0 3 =
      (Except.error (WaitErr.connectionError "connection refused"), [Event.probeDatastore]) ∧
    waitEngine (fun _ => EngineProbe.ready true) 0 3 = (Except.ok (), [Event.probeEngine]) ∧
    waitEngine (fun _ => EngineProbe.hardError "engine down") 0 3 =
      (Except.error (WaitErr.connectionError "engine down"), [Event.probeEngine]) := by
  refine ⟨?_, ?_, ?_, ?_⟩
  · exact c6_readiness_wait.1 _ _ 0 0 3 _ rfl rfl
  · exact c6_readiness_wait.2.1 _ _ 0 0 3 _ rfl
  · exact c6_readiness_wait.2.2.1 _ 0 3 rfl
  · exact c6_readiness_wait.2.2.2 _ 0 3 _ rfl

/-- C1: store provisioning lists the stores filtered by the configured
name; on zero matches it creates a store and records the fresh id, on
one or more matches it records the first listed id, creating nothing
and changing nothing; consequently two constructor runs in sequence
against the same backing store return a handle with the same store id
(and the same model id). -/
theorem c1_store_provisioning :
    (∀ (st : EngineState) (name : String), listStores st name = [] →
      ensureStore st name =
        (freshId st.nextId,
         { stores := st.stores ++ [{ id := freshId st.nextId, name := name }],
           models := st.models, nextId := st.nextId + 1 },
         [Event.listStores name, Event.createStore name])) ∧
    (∀ (st : EngineState) (name : String) (s : Store) (rest : List Store),
      listStores st name = s :: rest →
      ensureStore st name = (s.id, st, [Event.listStores name])) ∧
    (∀ (w : World) (c : Config) (st : EngineState) (fuel : Nat)
       (hdl1 hdl2 : Handle) (st1 st2 : EngineState),
      bootOutcome w c st fuel = Except.ok (hdl1, st1) →
      bootOutcome w c st1 fuel = Except.ok (hdl2, st2) →
      hdl2.storeID = hdl1.storeID ∧
      hdl2.authorizationModelID = hdl1.authorizationModelID) := by
  refine ⟨?_, ?_, ?_⟩
  · intro st name h
    simp [ensureStore, h, createStore]
  · intro st name s rest h
    simp [ensureStore, h]
  · intro w c st fuel hdl1 hdl2 st1 st2 hb1 hb2
    obtain ⟨text1, mid1, hrf1, hem1, hhdl1⟩ := newOpenFGA_ok_shape w c st fuel hdl1 st1 hb1
    obtain ⟨text2, mid2, hrf2, hem2, hhdl2⟩ := newOpenFGA_ok_shape w c st1 fuel hdl2 st2 hb2
    have htext : text2 = text1 := by
      rw [hrf1] at hrf2
      injection hrf2 with hx
      exact hx.symm
    have hstores : st1.stores = (ensureStore st c.storeName).2.1.stores :=
      ensureModel_ok_stores w.parse (ensureStore st c.storeName).2.1
        (ensureStore st c.storeName).1 text1 mid1 st1 hem1
    have hes2 : ensureStore st1 c.storeName =
        ((ensureStore st c.storeName).1, st1, [Event.listStores c.storeName]) :=
      ensureStore_after st c.storeName st1 hstores
    obtain ⟨sch, hparse⟩ := ensureModel_ok_parse w.parse (ensureStore st c.storeName).2.1
      (ensureStore st c.storeName).1 text1 mid1 st1 hem1
    have hidem := ensureModel_idem w.parse (ensureStore st c.storeName).2.1
      (ensureStore st c.storeName).1 text1 mid1 st1 hem1 text1 sch hparse
    rw [hes2, htext] at hem2
    simp only [] at hem2
    rw [hidem] at hem2
    simp at hem2
    rw [hhdl1, hhdl2, hes2]
    simp [hem2.1]

/-- Witness for C1 at concrete inputs: a cold store makes provisioning
create id-0, a warm store makes it reuse id-0 untouched, and two
constructor runs of the demo world return equal ids. -/
theorem c1_witness :
    ensureStore esEmpty "acme" =
      ("id-0", { stores := [{ id := "id-0", name := "acme" }], models := [], nextId := 1 },
       [Event.listStores "acme", Event.createStore "acme"]) ∧
    ensureStore esBoot1 "acme" = ("id-0", esBoot1, [Event.listStores "acme"]) ∧
    (hdlDemo.storeID = hdlDemo.storeID ∧
     hdlDemo.authorizationModelID = hdlDemo.authorizationModelID) := by
  refine ⟨?_, ?_, ?_⟩
  · have h := c1_store_provisioning.1 esEmpty "acme" (by decide)
    rw [h]
    decide
  · exact c1_store_provisioning.2.1 esBoot1 "acme" { id := "id-0", name := "acme" } []
      (by decide)
  · exact c1_store_provisioning.2.2 wDemo cDemo esEmpty 1 hdlDemo hdlDemo esBoot1 esBoot1
      (by rfl) (by rfl)

/-- C2: model provisioning lists the store models; on zero models it
writes the parsed schema and records the fresh id, on one or more it
records the first listed id with no write; the reuse branch never
compares the stored model against the freshly parsed DSL: any two DSL
texts that parse give the identical outcome there; and after one
successful provisioning, provisioning again with any parsing DSL text
(changed or not) performs no model write and returns the same id. -/
theorem c2_model_provisioning :
    (∀ (p : String → Except String Schema) (st : EngineState) (sid dsl : String)
       (sch : Schema), p dsl = Except.ok sch → listModels st sid = [] →
      ensureModel p st sid dsl =
        (Except.ok (freshId st.nextId,
          { stores := st.stores,
            models := st.models ++ [(sid, { id := freshId st.nextId, schema := sch })],
            nextId := st.nextId + 1 }),
         [Event.readModels sid, Event.writeModel sid])) ∧
    (∀ (p : String → Except String Schema) (st : EngineState) (sid dsl : String)
       (sch : Schema) (m : AuthModel) (rest : List AuthModel),
      p dsl = Except.ok sch → listModels st sid = m :: rest →
      ensureModel p st sid dsl = (Except.ok (m.id, st), [Event.readModels sid])) ∧
    (∀ (p : String → Except String Schema) (st : EngineState) (sid : String)
       (dsl1 dsl2 : String) (s1 s2 : Schema),
      p dsl1 = Except.ok s1 → p dsl2 = Except.ok s2 → listModels st sid ≠ [] →
      ensureModel p st sid dsl1 = ensureModel p st sid dsl2) ∧
    (∀ (p : String → Except String Schema) (st : EngineState) (sid dsl : String)
       (mid : String) (st2 : EngineState) (dsl2 : String) (s2 : Schema),
      (ensureModel p st sid dsl).1 = Except.ok (mid, st2) → p dsl2 = Except.ok s2 →
      ensureModel p st2 sid dsl2 = (Except.ok (mid, st2), [Event.readModels sid])) := by
  refine ⟨?_, ?_, ?_, ?_⟩
  · intro p st sid dsl sch hp hm
    simp [ensureModel, hp, hm, writeModel]
  · intro p st sid dsl sch m rest hp hm
    simp [ensureModel, hp, hm]
  · intro p st sid dsl1 dsl2 s1 s2 hp1 hp2 hne
    cases hm : listModels st sid with
    | nil => exact absurd hm hne
    | cons m rest => simp [ensureModel, hp1, hp2, hm]
  · intro p st sid dsl mid st2 dsl2 s2 h hp2
    exact ensureModel_idem p st sid dsl mid st2 h dsl2 s2 hp2

/-- Witness for C2 at concrete inputs: a store with no models gets the
parsed schema written as id-1; a store holding a model reuses its id
with no write; the reuse outcome is identical for two different DSL
texts; and re-provisioning the state the first run produced writes
nothing and returns id-1 again. -/
theorem c2_witness :
    ensureModel parseDemo { stores := [{ id := "id-0", name := "acme" }], models := [], nextId := 1 }
        "id-0" "model-dsl-v1" =
      (Except.ok ("id-1", esBoot1), [Event.readModels "id-0", Event.writeModel "id-0"]) ∧
    ensureModel parseDemo esWithModel "id-7" "model-dsl-v2" =
      (Except.ok ("id-8", esWithModel), [Event.readModels "id-7"]) ∧
    ensureModel parseDemo esWithModel "id-7" "model-dsl-v1" =
      ensureModel parseDemo esWithModel "id-7" "model-dsl-v2" ∧
    ensureModel parseDemo esBoot1 "id-0" "model-dsl-v2" =
      (Except.ok ("id-1", esBoot1), [Event.readModels "id-0"]) := by
  refine ⟨?_, ?_, ?_, ?_⟩
  · have h := c2_model_provisioning.1 parseDemo
      { stores := [{ id := "id-0", name := "acme" }], models := [], nextId := 1 }
      "id-0" "model-dsl-v1" { typeDefinitions := "model-dsl-v1" } (by rfl) (by decide)
    rw [h]
    rfl
  · exact c2_model_provisioning.2.1 parseDemo esWithModel "id-7" "model-dsl-v2"
      { typeDefinitions := "model-dsl-v2" }
      { id := "id-8", schema := { typeDefinitions := "old" } } [] (by rfl) (by decide)
  · exact c2_model_provisioning.2.2.1 parseDemo esWithModel "id-7"
      "model-dsl-v1" "model-dsl-v2"
      { typeDefinitions := "model-dsl-v1" } { typeDefinitions := "model-dsl-v2" }
      (by rfl) (by rfl) (by decide)
  · exact c2_model_provisioning.2.2.2 parseDemo
      { stores := [{ id := "id-0", name := "acme" }], models := [], nextId := 1 }
      "id-0" "model-dsl-v1" "id-1" esBoot1 "model-dsl-v2"
      { typeDefinitions := "model-dsl-v2" } (by rfl) (by rfl)

/-- C9: the DSL is parsed before the store models are listed, so a
parse failure ends model provisioning with the parse error and an empty
call trace (the model listing never happens), whatever models the store
already holds; lifted to the constructor, a malformed model file fails
the whole construction with a parse-classified error on any engine
state, including one whose existing model would have been reused. -/
theorem c9_parse_before_list :
    (∀ (p : String → Except String Schema) (st : EngineState) (sid dsl e : String),
      p dsl = Except.error e → ensureModel p st sid dsl = (Except.error e, [])) ∧
    (∀ (w : World) (c : Config) (st : EngineState) (fuel : Nat) (text e : String),
      (bootGate w c fuel).1 = Except.ok () →
      w.readFile c.modelFile = Except.ok text →
      w.parse text = Except.error e →
      bootOutcome w c st fuel = Except.error (BootErr.modelParseError e)) := by
  constructor
  · intro p st sid dsl e hp
    simp [ensureModel, hp]
  · intro w c st fuel text e hg hrf hp
    unfold bootOutcome newOpenFGA
    cases hgate : bootGate w c fuel with
    | mk g tr =>
      rw [hgate] at hg
      cases g with
      | error e2 => simp at hg
      | ok u =>
        dsimp only
        rw [hrf]
        simp [ensureModel, hp]

/-- Witness for C9 at concrete inputs: parsing the text bad fails, so
model provisioning on a store that already holds a model returns the
parse error with an empty trace, and the demo constructor with the bad
model file fails with the parse-classified error on that same state. -/
theorem c9_witness :
    ensureModel parseDemo esWithModel "id-7" "bad" =
      (Except.error "failed to transform DSL to OpenFGA model", []) ∧
    bootOutcome wBadModel cDemo esWithModel 1 =
      Except.error (BootErr.modelParseError "failed to transform DSL to OpenFGA model") := by
  constructor
  · exact c9_parse_before_list.1 parseDemo esWithModel "id-7" "bad"
      "failed to transform DSL to OpenFGA model" (by rfl)
  · exact c9_parse_before_list.2 wBadModel cDemo esWithModel 1 "bad"
      "failed to transform DSL to OpenFGA model" (by rfl) (by rfl) (by rfl)


/-- C3: on a non-empty batch, an engine write error whose text contains
the recognized already-exists phrase is swallowed as success when
ignoreExisting is set and wrapped and returned when it is not, and an
engine error of any other class is wrapped and returned for either
value of ignoreExisting. -/
theorem c3_write_conflict_handling :
    (∀ (ew : List Tuple → Option String) (h : Handle) (t : Tuple) (ts : List Tuple)
       (e : String), h.server = some () → ew (t :: ts) = some e →
      goContains e "already exists" = true →
      fgaWrite ew h (t :: ts) true =
        (GoOutcome.ok (), [Event.engineWrite (t :: ts).length])) ∧
    (∀ (ew : List Tuple → Option String) (h : Handle) (t : Tuple) (ts : List Tuple)
       (e : String), h.server = some () → ew (t :: ts) = some e →
      goContains e "already exists" = true →
      fgaWrite ew h (t :: ts) false =
        (GoOutcome.err ("failed to write tuple to OpenFGA: " ++ e),
         [Event.engineWrite (t :: ts).length])) ∧
    (∀ (ew : List Tuple → Option String) (h : Handle) (t : Tuple) (ts : List Tuple)
       (e : String) (ig : Bool), h.server = some () → ew (t :: ts) = some e →
      goContains e "already exists" = false →
      fgaWrite ew h (t :: ts) ig =
        (GoOutcome.err ("failed to write tuple to OpenFGA: " ++ e),
         [Event.engineWrite (t :: ts).length])) := by
  refine ⟨?_, ?_, ?_⟩
  · intro ew h t ts e hs hew hc
    simp [fgaWrite, hs, hew, hc]
  · intro ew h t ts e hs hew hc
    simp [fgaWrite, hs, hew, hc]
  · intro ew h t ts e ig hs hew hc
    simp [fgaWrite, hs, hew, hc]

/-- Witness for C3 at concrete inputs: the already-exists engine error
is swallowed with ignoreExisting and surfaced without it, and an
unrelated engine error is surfaced even with ignoreExisting. -/
theorem c3_witness :
    fgaWrite ewExisting hdlDemo
        [{ object := "document:1", relation := "editor", user := "user:alice" }] true =
      (GoOutcome.ok (), [Event.engineWrite 1]) ∧
    fgaWrite ewExisting hdlDemo
        [{ object := "document:1", relation := "editor", user := "user:alice" }] false =
      (GoOutcome.err "failed to write tuple to OpenFGA: cannot write a tuple which already exists",
       [Event.engineWrite 1]) ∧
    fgaWrite ewBroken hdlDemo
        [{ object := "document:1", relation := "editor", user := "user:alice" }] true =
      (GoOutcome.err "failed to write tuple to OpenFGA: context deadline exceeded",
       [Event.engineWrite 1]) := by
  refine ⟨?_, ?_, ?_⟩
  · exact c3_write_conflict_handling.1 ewExisting hdlDemo
      { object := "document:1", relation := "editor", user := "user:alice" } []
      "cannot write a tuple which already exists" rfl rfl (by decide)
  · exact c3_write_conflict_handling.2.1 ewExisting hdlDemo
      { object := "document:1", relation := "editor", user := "user:alice" } []
      "cannot write a tuple which already exists" rfl rfl (by decide)
  · exact c3_write_conflict_handling.2.2 ewBroken hdlDemo
      { object := "document:1", relation := "editor", user := "user:alice" } []
      "context deadline exceeded" true rfl rfl (by decide)

/-- C4: Write on an empty fact list fails with the empty-input error and
issues no engine call at all (the trace is empty), for every engine,
handle and value of ignoreExisting. -/
theorem c4_write_empty_input (ew : List Tuple → Option String) (h : Handle)
    (ig : Bool) :
    fgaWrite ew h [] ig = (GoOutcome.err "no tuples provided to write", []) := by
  simp [fgaWrite]

/-- C7 counterexample: Check on a handle that never completed bootstrap
(nil Server pointer, the zero value) ends in a nil dereference panic,
not in a NotReady error return, contradicting the claimed lifecycle
guard. -/
theorem c7_counterexample :
    handleCheck (fun _ => Except.ok true) nilHandle
      { object := "document:1", relation := "viewer", user := "user:alice" } =
    GoOutcome.nilPanic := by
  rfl

/-- C7 amended: the handle has no lifecycle guard and no NotReady or
AlreadyClosed error exists.  Check and Write on a handle whose engine
reference is nil fail with a nil dereference panic (Write only when the
fact list is non-empty, because the empty-input check runs first and
returns the plain error), while Close always returns success, leaves
the handle unchanged (the engine reference is not cleared), and calling
it twice also returns success. -/
theorem c7_lifecycle_amended :
    (∀ (ec : Tuple → Except String Bool) (h : Handle) (t : Tuple),
      h.server = none → handleCheck ec h t = GoOutcome.nilPanic) ∧
    (∀ (ew : List Tuple → Option String) (h : Handle) (t : Tuple)
       (ts : List Tuple) (ig : Bool),
      h.server = none → fgaWrite ew h (t :: ts) ig = (GoOutcome.nilPanic, [])) ∧
    (∀ (ew : List Tuple → Option String) (h : Handle) (ig : Bool),
      fgaWrite ew h [] ig = (GoOutcome.err "no tuples provided to write", [])) ∧
    (∀ h : Handle, (handleClose h).1 = Except.ok () ∧ (handleClose h).2.1 = h ∧
      (handleClose ((handleClose h).2.1)).1 = Except.ok ()) := by
  refine ⟨?_, ?_, ?_, ?_⟩
  · intro ec h t hs
    simp [handleCheck, hs]
  · intro ew h t ts ig hs
    simp [fgaWrite, hs]
  · intro ew h ig
    simp [fgaWrite]
  · intro h
    cases hs : h.server with
    | none => simp [handleClose, hs]
    | some u => simp [handleClose, hs]

/-- Witness for C7 amended at concrete handles: the nil handle panics on
Check and on a non-empty Write, returns the plain error on an empty
Write, and the demo handle survives two Close calls unchanged. -/
theorem c7_witness :
    handleCheck (fun _ => Except.ok false) nilHandle
      { object := "app:auth", relation := "admin", user := "user:alice" } =
        GoOutcome.nilPanic ∧
    fgaWrite (fun _ => none) nilHandle
      [{ object := "app:auth", relation := "admin", user := "user:alice" }] true =
        (GoOutcome.nilPanic, []) ∧
    fgaWrite (fun _ => none) nilHandle [] false =
      (GoOutcome.err "no tuples provided to write", []) ∧
    ((handleClose hdlDemo).1 = Except.ok () ∧ (handleClose hdlDemo).2.1 = hdlDemo ∧
      (handleClose ((handleClose hdlDemo).2.1)).1 = Except.ok ()) := by
  refine ⟨?_, ?_, ?_, ?_⟩
  · exact c7_lifecycle_amended.1 (fun _ => Except.ok false) nilHandle
      { object := "app:auth", relation := "admin", user := "user:alice" } rfl
  · exact c7_lifecycle_amended.2.1 (fun _ => none) nilHandle
      { object := "app:auth", relation := "admin", user := "user:alice" } [] true rfl
  · exact c7_lifecycle_amended.2.2.1 (fun _ => none) nilHandle false
  · exact c7_lifecycle_amended.2.2.2 hdlDemo

/-- C8: the configuration with the datastore URI missing passes
validation (the go-playground validator never sees the unexported
dataStoreURI field, so its required and url tags never run), while the
same configuration with the store name missing is rejected; the
constructor on the URI-less configuration proceeds into datastore setup
(the connect call appears in the trace) and fails there with a
datastore error, not with the configuration-validation error the claim
requires before any datastore I/O. -/
theorem c8_uri_not_validated :
    validateConfig wDemo.fileExists cNoURI = true ∧
    validateConfig wDemo.fileExists { cDemo with storeName := "" } = false ∧
    newOpenFGA wDemo cNoURI esEmpty 1 =
      (Except.error (BootErr.datastoreUnreachable "failed to create datastore"),
       [Event.datastoreConnect]) ∧
    bootOutcome wDemo cNoURI esEmpty 1 ≠ Except.error BootErr.configInvalid := by
  refine ⟨by decide, by decide, by rfl, ?_⟩
  intro h
  have h2 : Except.error (BootErr.datastoreUnreachable "failed to create datastore") =
      (Except.error BootErr.configInvalid :
        Except BootErr (Handle × EngineState)) := by
    rw [← h]
    rfl
  simp at h2

/-- C10: the fgaclient AddTuples has no empty-input check: on an empty
tuple list it still issues the engine write call carrying zero tuple
keys, and its result is the engine result verbatim (wrapped on error),
unlike the fail-fast empty-input behaviour of the other write entry
point. -/
theorem c10_addTuples_no_empty_check :
    (∀ ew : List Tuple → Option String,
      (addTuples ew []).2 = [Event.engineWrite 0]) ∧
    (∀ ew : List Tuple → Option String,
      ew [] = none → addTuples ew [] = (Except.ok (), [Event.engineWrite 0])) ∧
    (∀ (ew : List Tuple → Option String) (e : String), ew [] = some e →
      addTuples ew [] =
        (Except.error ("failed to write tuple to OpenFGA: " ++ e),
         [Event.engineWrite 0])) := by
  refine ⟨?_, ?_, ?_⟩
  · intro ew
    cases hew : ew [] with
    | none => simp [addTuples, hew]
    | some e => simp [addTuples, hew]
  · intro ew hew
    simp [addTuples, hew]
  · intro ew e hew
    simp [addTuples, hew]

/-- Witness for C10 at concrete engines: a succeeding engine and an
engine reporting the already-exists error both receive the empty batch
write, and AddTuples returns their outcome. -/
theorem c10_witness :
    (addTuples (fun _ => none) []).2 = [Event.engineWrite 0] ∧
    addTuples (fun _ => none) [] = (Except.ok (), [Event.engineWrite 0]) ∧
    addTuples ewExisting [] =
      (Except.error "failed to write tuple to OpenFGA: cannot write a tuple which already exists",
       [Event.engineWrite 0]) := by
  refine ⟨?_, ?_, ?_⟩
  · exact c10_addTuples_no_empty_check.1 (fun _ => none)
  · exact c10_addTuples_no_empty_check.2.1 (fun _ => none) rfl
  · exact c10_addTuples_no_empty_check.2.2 ewExisting
      "cannot write a tuple which already exists" rfl
